import Mathlib

/-!
Verification of the JEE time-tracker timer/status core (src/App.tsx,
src/types.ts). The React component state is embedded as an explicit
state record `AppState`; each handler of `App.tsx` becomes a pure state
transformer. `Date.now()` readings are passed in as an explicit `now : ℤ`
(milliseconds). The `useEffect` timer loop is embedded as the `tick`
transformer, guarded exactly by the effect's start condition
(`view = TRACKER ∧ isGlobalPaused = false`): when the guard fails the
interval is cleared in the source, so no tick fires and the state is
unchanged.
-/

namespace JeeTracker

/-- `QuestionStatus` enum from src/types.ts. -/
inductive QuestionStatus where
  | NOT_STARTED
  | ACTIVE
  | PAUSED
  | SKIPPED
  | COMPLETED
deriving DecidableEq, Repr

/-- `Subject` union type from src/types.ts (`null` is modelled by `Option`). -/
inductive Subject where
  | Maths
  | Physics
  | Chemistry
deriving DecidableEq, Repr

/-- `Question` record from src/types.ts. `timeSpentMs` is a JS number holding
milliseconds; we embed it as ℤ (ticks only ever add measured deltas). -/
structure Question where
  id : ℕ
  status : QuestionStatus
  timeSpentMs : ℤ
  wasSkipped : Bool
deriving DecidableEq, Repr

/-- `AppConfig` from src/types.ts; the numeric fields are JS numbers entered
through numeric form inputs, embedded as rationals. -/
structure AppConfig where
  range1Limit : ℚ
  range2Lower : ℚ
  range2Upper : ℚ
  range3Limit : ℚ
  longQuestionThresholdMin : ℚ
  idealTimePerQuestionMin : ℚ
  subject : Option Subject
deriving DecidableEq, Repr

/-- `DEFAULT_CONFIG` from src/types.ts. -/
def DEFAULT_CONFIG : AppConfig where
  range1Limit := 2
  range2Lower := 2
  range2Upper := 3
  range3Limit := 3
  longQuestionThresholdMin := 7/2
  idealTimePerQuestionMin := 12/5
  subject := none

/-- `AppView` enum from src/App.tsx. -/
inductive AppView where
  | SETUP
  | TRACKER
  | ANALYTICS
deriving DecidableEq, Repr

/-- The React state of the `App` component (src/App.tsx): the `useState`
hooks plus the `lastTickRef` ref. `timerIntervalRef` (the interval handle)
is not data; whether the interval is live is exactly the guard
`view = TRACKER ∧ isGlobalPaused = false`, which the `tick` transformer
tests. `showGlobalTimerControls` is a pure modal flag, carried for
completeness. -/
structure AppState where
  view : AppView
  questions : List Question
  activeQuestionId : Option ℕ
  config : AppConfig
  totalAllocatedTimeMs : ℤ
  remainingTimeMs : ℤ
  isGlobalPaused : Bool
  showGlobalTimerControls : Bool
  lastTick : ℤ
deriving DecidableEq, Repr

/-- The initial component state (the `useState` initialisers in src/App.tsx;
`lastTickRef` starts at 0). -/
def initState : AppState where
  view := .SETUP
  questions := []
  activeQuestionId := none
  config := DEFAULT_CONFIG
  totalAllocatedTimeMs := 0
  remainingTimeMs := 0
  isGlobalPaused := false
  showGlobalTimerControls := false
  lastTick := 0

/-- `handleStartSession` (src/App.tsx lines 36-54): builds `count` fresh
records with ids `i + 1` for `i` in `0..count-1`, applies the chosen config,
and sets both timers to
`Math.floor(count * idealTimePerQuestionMin * 60 * 1000)`. It does not
touch `activeQuestionId` (the setup view is only reachable with it already
null). -/
def handleStartSession (s : AppState) (count : ℕ) (newConfig : AppConfig) :
    AppState :=
  let newQuestions : List Question :=
    (List.range count).map (fun i =>
      { id := i + 1
        status := .NOT_STARTED
        timeSpentMs := 0
        wasSkipped := false })
  let allocatedMs : ℤ :=
    Rat.floor ((count : ℚ) * newConfig.idealTimePerQuestionMin * 60 * 1000)
  { s with
    config := newConfig
    questions := newQuestions
    totalAllocatedTimeMs := allocatedMs
    remainingTimeMs := allocatedMs
    isGlobalPaused := false
    view := .TRACKER }

/-- The per-record update inside `updateQuestionStatus`'s `map`
(src/App.tsx lines 100-115): records with a different id are returned
unchanged; the matching record gets the new status, and additionally
`wasSkipped := true` when the new status is SKIPPED. -/
def updateRecord (id : ℕ) (newStatus : QuestionStatus) (q : Question) :
    Question :=
  if q.id ≠ id then q
  else
    let updatedQ := { q with status := newStatus }
    if newStatus = .SKIPPED then { updatedQ with wasSkipped := true }
    else updatedQ

/-- `updateQuestionStatus` (src/App.tsx lines 99-117). The
`setActiveQuestionId` / `lastTickRef` side effects sit inside the matching
branch of the `map`, so they fire exactly when a record with the given id
exists: ACTIVE sets `activeQuestionId := id` and resynchronises
`lastTickRef` to now; SKIPPED and COMPLETED set `activeQuestionId := null`
(unconditionally — the source never compares `id` against the current
`activeQuestionId`); other statuses leave the clock linkage alone. -/
def updateQuestionStatus (s : AppState) (id : ℕ)
    (newStatus : QuestionStatus) (now : ℤ) : AppState :=
  let questions' := s.questions.map (updateRecord id newStatus)
  if s.questions.any (fun q => q.id = id) then
    if newStatus = .ACTIVE then
      { s with questions := questions', activeQuestionId := some id,
               lastTick := now }
    else if newStatus = .SKIPPED ∨ newStatus = .COMPLETED then
      { s with questions := questions', activeQuestionId := none }
    else
      { s with questions := questions' }
  else
    { s with questions := questions' }

/-- The condition under which the interval callback of the timer `useEffect`
(src/App.tsx lines 57-96) is installed: the effect clears the interval and
returns early unless the view is TRACKER and the global clock is unpaused. -/
def tickRunning (s : AppState) : Prop :=
  s.view = .TRACKER ∧ s.isGlobalPaused = false

instance (s : AppState) : Decidable (tickRunning s) := by
  unfold tickRunning; infer_instance

/-- One firing of the interval callback (src/App.tsx lines 70-87) at wall
time `now`: when the effect's guard holds, `delta := now - lastTickRef`,
`lastTickRef := now`, `remainingTimeMs -= delta` unconditionally, and if
`activeQuestionId` is non-null the map adds `delta` to the `timeSpentMs` of
the record whose id equals it and whose status is ACTIVE. When the guard
fails no interval exists, so the state is unchanged. -/
def tick (s : AppState) (now : ℤ) : AppState :=
  if tickRunning s then
    let delta := now - s.lastTick
    let s1 := { s with lastTick := now,
                       remainingTimeMs := s.remainingTimeMs - delta }
    match s.activeQuestionId with
    | none => s1
    | some aid =>
      { s1 with questions := s1.questions.map (fun q =>
          if q.id = aid ∧ q.status = .ACTIVE then
            { q with timeSpentMs := q.timeSpentMs + delta }
          else q) }
  else s

/-- The `onPause` handler passed to `GlobalTimerControls` (src/App.tsx). -/
def onPause (s : AppState) : AppState :=
  { s with isGlobalPaused := true }

/-- The `onResume` handler passed to `GlobalTimerControls`
(src/App.tsx lines 186-189): unpause and resynchronise `lastTickRef` to the
current instant. -/
def onResume (s : AppState) (now : ℤ) : AppState :=
  { s with isGlobalPaused := false, lastTick := now }

/-- `handleFinishSession` (src/App.tsx). -/
def handleFinishSession (s : AppState) : AppState :=
  { s with activeQuestionId := none, isGlobalPaused := true,
           view := .ANALYTICS }

/-- `handleRestart` (src/App.tsx). -/
def handleRestart (s : AppState) : AppState :=
  { s with view := .SETUP, questions := [], activeQuestionId := none,
           remainingTimeMs := 0, isGlobalPaused := false }

/-! ### Concrete scenario states used by the spec's scenarios -/

/-- The default config with `idealTimePerQuestionMin = 2` (the spec's
scenario config). -/
def cfgIdeal2 : AppConfig :=
  { DEFAULT_CONFIG with idealTimePerQuestionMin := 2 }

/-- A config with a tiny fractional ideal time, reachable through the
numeric form input (`parseFloat` of the typed text). -/
def cfgTiny : AppConfig :=
  { DEFAULT_CONFIG with idealTimePerQuestionMin := (1 : ℚ)/100000 }

/-- Scenario: a fresh session of 3 questions at 2 minutes each. -/
def sessionStart3 : AppState := handleStartSession initState 3 cfgIdeal2

/-- Scenario: question 1 activated at t = 0. -/
def actOne : AppState := updateQuestionStatus sessionStart3 1 .ACTIVE 0

/-- Scenario step: one tick at t = 1000 (question 1 accrues 1000 ms). -/
def skipStep1 : AppState := tick actOne 1000

/-- Scenario step: question 1 skipped at t = 1000. -/
def skipStep2 : AppState := updateQuestionStatus skipStep1 1 .SKIPPED 1000

/-- Scenario step: question 1 resumed (ACTIVE) at t = 1000. -/
def skipStep3 : AppState := updateQuestionStatus skipStep2 1 .ACTIVE 1000

/-- Scenario step: one tick at t = 3000 (question 1 accrues 2000 ms more). -/
def skipStep4 : AppState := tick skipStep3 3000

/-- Scenario end: question 1 completed at t = 3000. -/
def skipFinal : AppState := updateQuestionStatus skipStep4 1 .COMPLETED 3000

/-- Scenario: question 1 completed directly from ACTIVE at t = 0. -/
def cDone : AppState := updateQuestionStatus actOne 1 .COMPLETED 0

/-! ### Helper lemmas -/

/-- `Batteries.Rat.floor` agrees with the `FloorRing` floor on ℚ. -/
lemma ratFloor_eq_intFloor (q : ℚ) : Rat.floor q = ⌊q⌋ := by
  rw [Rat.floor_def', Rat.floor_def]

/-- Evaluation rule for `Rat.floor` from the defining inequalities. -/
lemma ratFloor_eq_of (q : ℚ) (z : ℤ) (h1 : (z : ℚ) ≤ q) (h2 : q < z + 1) :
    Rat.floor q = z := by
  rw [ratFloor_eq_intFloor]
  exact Int.floor_eq_iff.mpr ⟨h1, h2⟩

/-- Every branch of `updateQuestionStatus` stores the same mapped list. -/
lemma updateQuestionStatus_questions (s : AppState) (id : ℕ)
    (st : QuestionStatus) (now : ℤ) :
    (updateQuestionStatus s id st now).questions =
      s.questions.map (updateRecord id st) := by
  unfold updateQuestionStatus
  split_ifs <;> rfl

/-- `updateQuestionStatus` never changes the view. -/
lemma updateQuestionStatus_view (s : AppState) (id : ℕ)
    (st : QuestionStatus) (now : ℤ) :
    (updateQuestionStatus s id st now).view = s.view := by
  unfold updateQuestionStatus
  split_ifs <;> rfl

/-- `updateQuestionStatus` never changes the global pause flag. -/
lemma updateQuestionStatus_isGlobalPaused (s : AppState) (id : ℕ)
    (st : QuestionStatus) (now : ℤ) :
    (updateQuestionStatus s id st now).isGlobalPaused = s.isGlobalPaused := by
  unfold updateQuestionStatus
  split_ifs <;> rfl

/-- A record with a different id passes through `updateRecord` unchanged. -/
lemma updateRecord_ne (id : ℕ) (st : QuestionStatus) (q : Question)
    (h : q.id ≠ id) : updateRecord id st q = q := by
  unfold updateRecord
  rw [if_pos h]

/-- When a matching record exists, the ACTIVE transition retargets the
clock linkage and resynchronises the last-tick timestamp. -/
lemma updateQuestionStatus_active_clock (s : AppState) (id : ℕ) (now : ℤ)
    (hex : ∃ p ∈ s.questions, p.id = id) :
    (updateQuestionStatus s id .ACTIVE now).activeQuestionId = some id ∧
    (updateQuestionStatus s id .ACTIVE now).lastTick = now := by
  have hany : s.questions.any (fun q => q.id = id) = true := by
    simp only [List.any_eq_true, decide_eq_true_eq]
    exact hex
  unfold updateQuestionStatus
  rw [if_pos hany, if_pos rfl]
  exact ⟨rfl, rfl⟩

/-- When the run guard fails the interval is cleared, so a tick is the
identity. -/
lemma tick_not_running (s : AppState) (now : ℤ) (h : ¬ tickRunning s) :
    tick s now = s := by
  unfold tick
  rw [if_neg h]

/-- A running tick subtracts the measured delta from the global budget. -/
lemma tick_remainingTimeMs (s : AppState) (now : ℤ) (h : tickRunning s) :
    (tick s now).remainingTimeMs = s.remainingTimeMs - (now - s.lastTick) := by
  unfold tick
  rw [if_pos h]
  cases hA : s.activeQuestionId <;> simp [hA]

/-- A running tick resynchronises the last-tick timestamp. -/
lemma tick_lastTick (s : AppState) (now : ℤ) (h : tickRunning s) :
    (tick s now).lastTick = now := by
  unfold tick
  rw [if_pos h]
  cases hA : s.activeQuestionId <;> simp [hA]

/-- With no linked question, a running tick leaves the registry alone. -/
lemma tick_questions_none (s : AppState) (now : ℤ) (h : tickRunning s)
    (hA : s.activeQuestionId = none) :
    (tick s now).questions = s.questions := by
  unfold tick
  rw [if_pos h, hA]

/-- With a linked question id, a running tick maps the accrual update over
the registry. -/
lemma tick_questions_some (s : AppState) (now : ℤ) (aid : ℕ)
    (h : tickRunning s) (hA : s.activeQuestionId = some aid) :
    (tick s now).questions = s.questions.map (fun q =>
      if q.id = aid ∧ q.status = .ACTIVE then
        { q with timeSpentMs := q.timeSpentMs + (now - s.lastTick) }
      else q) := by
  unfold tick
  rw [if_pos h, hA]

/-- Element-wise effect of a running tick on the registry: the record the
clock linkage references gains exactly the measured delta when it is
ACTIVE, and every record not in that situation is returned unchanged. -/
lemma tick_questions_get (s : AppState) (now : ℤ) (i : ℕ) (q : Question)
    (h : tickRunning s) (hq : s.questions[i]? = some q) :
    ((s.activeQuestionId = some q.id ∧ q.status = .ACTIVE →
        (tick s now).questions[i]? =
          some { q with timeSpentMs := q.timeSpentMs + (now - s.lastTick) }) ∧
     (¬ (s.activeQuestionId = some q.id ∧ q.status = .ACTIVE) →
        (tick s now).questions[i]? = some q)) := by
  cases hA : s.activeQuestionId with
  | none =>
    refine ⟨fun hc => absurd hc.1 (by simp), fun _ => ?_⟩
    rw [tick_questions_none s now h hA]
    exact hq
  | some aid =>
    constructor
    · rintro ⟨hid, hst⟩
      have haid : aid = q.id := Option.some.inj hid
      rw [tick_questions_some s now aid h hA]
      simp only [List.getElem?_map, hq, Option.map_some']
      rw [if_pos ⟨haid.symm, hst⟩]
    · intro hc
      rw [tick_questions_some s now aid h hA]
      simp only [List.getElem?_map, hq, Option.map_some']
      rw [if_neg]
      intro hcond
      exact hc ⟨by rw [hcond.1], hcond.2⟩

/-- A record whose `wasSkipped` flag is set keeps it set through any
status transition. -/
lemma updateRecord_wasSkipped (id : ℕ) (st : QuestionStatus) (q : Question)
    (h : q.wasSkipped = true) : (updateRecord id st q).wasSkipped = true := by
  unfold updateRecord
  split_ifs <;> simp [h]

/-! ### Claims -/

/-- C1, counterexample: the status-transition operation does NOT preserve
single-ACTIVE. From the reachable state `actOne` (question 1 ACTIVE),
calling `updateQuestionStatus` with `newStatus = ACTIVE` on question 2
leaves both question 1 and question 2 with status ACTIVE: the operation
never demotes the previously active record, so the claimed invariant
fails. -/
theorem C1_counterexample :
    actOne.questions.countP (fun q => q.status == QuestionStatus.ACTIVE) = 1 ∧
    (updateQuestionStatus actOne 2 .ACTIVE 0).questions.countP
      (fun q => q.status == QuestionStatus.ACTIVE) = 2 := by
  constructor <;> decide

/-- C1, amended: activating a record does not change any other record (in
particular a previously ACTIVE sibling stays ACTIVE — single-ACTIVE is
caller/UI discipline, not enforced by the operation); the clock linkage is
retargeted to the newly activated id, so only the new record accrues time
on subsequent ticks. -/
theorem C1_amended (s : AppState) (id : ℕ) (now : ℤ) (i : ℕ) (q : Question)
    (hq : s.questions[i]? = some q) (hne : q.id ≠ id) :
    (updateQuestionStatus s id .ACTIVE now).questions[i]? = some q ∧
    ((∃ p ∈ s.questions, p.id = id) →
      (updateQuestionStatus s id .ACTIVE now).activeQuestionId = some id) := by
  constructor
  · rw [updateQuestionStatus_questions]
    simp only [List.getElem?_map, hq, Option.map_some']
    rw [updateRecord_ne _ _ _ hne]
  · intro hex
    exact (updateQuestionStatus_active_clock s id now hex).1

/-- Witness for C1 (amended) at the concrete double-activation state. -/
theorem C1_amended_witness :
    (updateQuestionStatus actOne 2 .ACTIVE 0).questions[0]? =
      some { id := 1, status := .ACTIVE, timeSpentMs := 0,
             wasSkipped := false } ∧
    (updateQuestionStatus actOne 2 .ACTIVE 0).activeQuestionId = some 2 := by
  have h := C1_amended actOne 2 0 0
      { id := 1, status := .ACTIVE, timeSpentMs := 0, wasSkipped := false }
      (by decide) (by decide)
  exact ⟨h.1, h.2 (by decide)⟩

/-- C2, counterexample: in the reachable state `actOne` the clock links
question 1 (`activeQuestionId = some 1`); transitioning the OTHER record,
question 2, to SKIPPED nevertheless clears `activeQuestionId` to null —
the source calls `setActiveQuestionId(null)` without comparing the
transitioned id against the current active id, contradicting the claim
that `activeQuestionId` is left unchanged in that case. -/
theorem C2_counterexample :
    actOne.activeQuestionId = some 1 ∧
    (updateQuestionStatus actOne 2 .SKIPPED 0).activeQuestionId = none := by
  constructor <;> decide

/-- C2, amended: transitioning any EXISTING record to SKIPPED or COMPLETED
clears `activeQuestionId` to null unconditionally, whether or not that
record was the currently active one. -/
theorem C2_amended (s : AppState) (id : ℕ) (st : QuestionStatus) (now : ℤ)
    (hst : st = .SKIPPED ∨ st = .COMPLETED)
    (hex : ∃ p ∈ s.questions, p.id = id) :
    (updateQuestionStatus s id st now).activeQuestionId = none := by
  have hany : s.questions.any (fun q => q.id = id) = true := by
    simp only [List.any_eq_true, decide_eq_true_eq]
    exact hex
  have hne : st ≠ .ACTIVE := by
    rcases hst with h | h <;> simp [h]
  unfold updateQuestionStatus
  rw [if_pos hany, if_neg hne, if_pos hst]

/-- Witness for C2 (amended): completing the currently active question 1
clears the linkage. -/
theorem C2_amended_witness :
    (updateQuestionStatus actOne 1 .COMPLETED 0).activeQuestionId = none :=
  C2_amended actOne 1 .COMPLETED 0 (Or.inr rfl) (by decide)

/-- C8: a status-transition request for an id that matches no record is a
complete no-op: the registry, the clock linkage and the last-tick
timestamp (the whole state) are unchanged. -/
theorem C8_nonexistent_id_noop (s : AppState) (id : ℕ)
    (st : QuestionStatus) (now : ℤ) (h : ∀ q ∈ s.questions, q.id ≠ id) :
    updateQuestionStatus s id st now = s := by
  have hmap : s.questions.map (updateRecord id st) = s.questions := by
    have := List.map_congr_left
      (fun a ha => updateRecord_ne id st a (h a ha))
    rw [this, List.map_id']
  have hany : ¬ (s.questions.any (fun q => q.id = id) = true) := by
    simp only [List.any_eq_true, decide_eq_true_eq, not_exists]
    intro q
    rw [not_and]
    exact h q
  unfold updateQuestionStatus
  rw [if_neg hany, hmap]

/-- Witness for C8 at a fresh 3-question session and the absent id 99. -/
theorem C8_witness :
    updateQuestionStatus sessionStart3 99 .ACTIVE 0 = sessionStart3 :=
  C8_nonexistent_id_noop sessionStart3 99 .ACTIVE 0 (by decide)

/-- C3: on a running tick with measured delta `D = now - lastTick`, the
global budget decreases by exactly `D` (unconditionally, with no lower
bound), the record referenced by a non-null `activeQuestionId` gains
exactly `D` when its status is ACTIVE, and every record not in that
situation (a stale non-ACTIVE reference, or any other record) is returned
unchanged. -/
theorem C3_tick_effect (s : AppState) (now : ℤ) (h : tickRunning s) :
    (tick s now).remainingTimeMs = s.remainingTimeMs - (now - s.lastTick) ∧
    ∀ (i : ℕ) (q : Question), s.questions[i]? = some q →
      ((s.activeQuestionId = some q.id ∧ q.status = .ACTIVE →
          (tick s now).questions[i]? =
            some { q with
                     timeSpentMs := q.timeSpentMs + (now - s.lastTick) }) ∧
       (¬ (s.activeQuestionId = some q.id ∧ q.status = .ACTIVE) →
          (tick s now).questions[i]? = some q)) :=
  ⟨tick_remainingTimeMs s now h,
   fun i q hq => tick_questions_get s now i q h hq⟩

/-- Witness for C3: a tick of 1000 ms on the session with question 1
active credits question 1 with 1000 ms, leaves question 2 untouched, and
debits the budget by 1000 ms. -/
theorem C3_witness :
    (tick actOne 1000).remainingTimeMs = actOne.remainingTimeMs - 1000 ∧
    (tick actOne 1000).questions[0]? =
      some { id := 1, status := .ACTIVE, timeSpentMs := 1000,
             wasSkipped := false } ∧
    (tick actOne 1000).questions[1]? =
      some { id := 2, status := .NOT_STARTED, timeSpentMs := 0,
             wasSkipped := false } := by
  have h := C3_tick_effect actOne 1000 (by decide)
  refine ⟨?_, ?_, ?_⟩
  · rw [h.1, show actOne.lastTick = 0 from by decide]
    ring
  · have h0 := (h.2 0
      { id := 1, status := .ACTIVE, timeSpentMs := 0, wasSkipped := false }
      (by decide)).1 ⟨by decide, rfl⟩
    rw [h0]
    decide
  · exact (h.2 1
      { id := 2, status := .NOT_STARTED, timeSpentMs := 0,
        wasSkipped := false }
      (by decide)).2 (by decide)

/-- C5: a record whose status is COMPLETED or SKIPPED is never touched by
a clock tick (accrual is frozen), and accrual is cumulative across a
skip/resume cycle — in the concrete scenario, question 1 accrues 1000 ms,
is skipped (time frozen at 1000, `wasSkipped` set), resumes, accrues
2000 ms more and is completed with `timeSpentMs = 3000` and
`wasSkipped = true`. -/
theorem C5_frozen_and_cumulative :
    (∀ (s : AppState) (now : ℤ) (i : ℕ) (q : Question),
        s.questions[i]? = some q →
        (q.status = .COMPLETED ∨ q.status = .SKIPPED) →
        (tick s now).questions[i]? = some q) ∧
    skipStep2.questions[0]? =
      some { id := 1, status := .SKIPPED, timeSpentMs := 1000,
             wasSkipped := true } ∧
    skipFinal.questions[0]? =
      some { id := 1, status := .COMPLETED, timeSpentMs := 3000,
             wasSkipped := true } := by
  refine ⟨?_, by decide, by decide⟩
  intro s now i q hq hst
  by_cases h : tickRunning s
  · refine (tick_questions_get s now i q h hq).2 ?_
    rintro ⟨-, hA⟩
    rcases hst with h' | h' <;> simp [h'] at hA
  · rw [tick_not_running s now h]
    exact hq

/-- Witness for C5: a tick while question 1 is SKIPPED leaves its record
(time included) exactly as it was. -/
theorem C5_witness :
    (tick skipStep2 2000).questions[0]? =
      some { id := 1, status := .SKIPPED, timeSpentMs := 1000,
             wasSkipped := true } :=
  C5_frozen_and_cumulative.1 skipStep2 2000 0
    { id := 1, status := .SKIPPED, timeSpentMs := 1000, wasSkipped := true }
    (by decide) (Or.inr rfl)

/-- C6: resuming the global clock changes no record and no budget, and
resynchronises the last-tick timestamp to the resume instant, so a
subsequent tick at time `t` credits exactly `t - now` (the wall time
elapsed after the resume) — the pause duration, however long, is never
backfilled into the budget or into any record. -/
theorem C6_resume_no_backfill (s : AppState) (now t : ℤ)
    (hview : s.view = .TRACKER) :
    (onResume s now).remainingTimeMs = s.remainingTimeMs ∧
    (onResume s now).questions = s.questions ∧
    (onResume s now).lastTick = now ∧
    (tick (onResume s now) t).remainingTimeMs =
      s.remainingTimeMs - (t - now) ∧
    (∀ (i : ℕ) (q : Question), s.questions[i]? = some q →
        ¬ (s.activeQuestionId = some q.id ∧ q.status = .ACTIVE) →
        (tick (onResume s now) t).questions[i]? = some q) ∧
    (∀ (i : ℕ) (q : Question), s.questions[i]? = some q →
        s.activeQuestionId = some q.id → q.status = .ACTIVE →
        (tick (onResume s now) t).questions[i]? =
          some { q with timeSpentMs := q.timeSpentMs + (t - now) }) := by
  have hrun : tickRunning (onResume s now) := ⟨hview, rfl⟩
  refine ⟨rfl, rfl, rfl, ?_, ?_, ?_⟩
  · rw [tick_remainingTimeMs _ _ hrun]
    rfl
  · intro i q hq hc
    exact (tick_questions_get (onResume s now) t i q hrun hq).2 hc
  · intro i q hq hA hst
    exact (tick_questions_get (onResume s now) t i q hrun hq).1 ⟨hA, hst⟩

/-- Witness for C6: `actOne` paused at `lastTick = 0`, resumed at
t = 5000, ticked at t = 6000: question 1 gains only the post-resume
1000 ms (not the 5000 ms pause), and so does the budget. -/
theorem C6_witness :
    (tick (onResume (onPause actOne) 5000) 6000).questions[0]? =
      some { id := 1, status := .ACTIVE, timeSpentMs := 1000,
             wasSkipped := false } ∧
    (tick (onResume (onPause actOne) 5000) 6000).remainingTimeMs =
      (onPause actOne).remainingTimeMs - 1000 := by
  have h := C6_resume_no_backfill (onPause actOne) 5000 6000 (by decide)
  constructor
  · have h2 := h.2.2.2.2.2 0
      { id := 1, status := .ACTIVE, timeSpentMs := 0, wasSkipped := false }
      (by decide) (by decide) rfl
    rw [h2]
    decide
  · rw [h.2.2.2.1]
    norm_num

/-- C7: while the global clock is paused no tick fires, and the state —
the budget and every record — is unchanged however much wall time passes
(a tick is the identity); similarly no tick fires outside the tracker
view; and the interval-callback guard holds exactly when the session view
is active and the clock is unpaused. -/
theorem C7_paused_no_ticks (s : AppState) (now : ℤ) :
    (s.isGlobalPaused = true → tick s now = s) ∧
    (s.view ≠ .TRACKER → tick s now = s) ∧
    (tickRunning s ↔ s.view = .TRACKER ∧ s.isGlobalPaused = false) := by
  refine ⟨fun hp => ?_, fun hv => ?_, Iff.rfl⟩
  · apply tick_not_running
    rintro ⟨-, hfalse⟩
    rw [hp] at hfalse
    cases hfalse
  · apply tick_not_running
    rintro ⟨hview, -⟩
    exact hv hview

/-- Witness for C7: an arbitrarily late tick on the paused mid-session
state changes nothing at all. -/
theorem C7_witness : tick (onPause actOne) 999999 = onPause actOne :=
  (C7_paused_no_ticks (onPause actOne) 999999).1 rfl

/-- Projection of `handleStartSession`: the fresh registry. -/
lemma handleStartSession_questions (s : AppState) (count : ℕ)
    (cfg : AppConfig) :
    (handleStartSession s count cfg).questions =
      (List.range count).map (fun i =>
        { id := i + 1, status := .NOT_STARTED, timeSpentMs := 0,
          wasSkipped := false }) := rfl

/-- Projection of `handleStartSession`: the allocated budget. -/
lemma handleStartSession_total (s : AppState) (count : ℕ)
    (cfg : AppConfig) :
    (handleStartSession s count cfg).totalAllocatedTimeMs =
      Rat.floor ((count : ℚ) * cfg.idealTimePerQuestionMin * 60 * 1000) :=
  rfl

/-- C4, counterexample: the session-start budget is NOT always the exact
product `questionCount × idealTimePerQuestionMin × 60000` — the source
applies `Math.floor`. With one question and an ideal time of 1/100000
minutes the product is 3/5 ms, while the stored budget is its floor, 0. -/
theorem C4_counterexample :
    ((handleStartSession initState 1 cfgTiny).totalAllocatedTimeMs : ℚ) ≠
      (1 : ℚ) * cfgTiny.idealTimePerQuestionMin * 60000 := by
  have h0 : (handleStartSession initState 1 cfgTiny).totalAllocatedTimeMs
      = 0 := by
    rw [handleStartSession_total]
    apply ratFloor_eq_of
    · show ((0 : ℤ) : ℚ) ≤ ((1 : ℕ) : ℚ) *
        cfgTiny.idealTimePerQuestionMin * 60 * 1000
      rw [show cfgTiny.idealTimePerQuestionMin = (1 : ℚ)/100000 from rfl]
      norm_num
    · rw [show cfgTiny.idealTimePerQuestionMin = (1 : ℚ)/100000 from rfl]
      norm_num
  rw [h0, show cfgTiny.idealTimePerQuestionMin = (1 : ℚ)/100000 from rfl]
  norm_num

/-- C4, amended: for every positive `questionCount` and config, starting a
session creates exactly `n` records with ids 1..n in order, all
NOT_STARTED with `timeSpentMs = 0` and `wasSkipped = false`, and sets
`totalAllocatedTimeMs = remainingTimeMs =
⌊n × idealTimePerQuestionMin × 60000⌋` (the floor of the product, per the
source's `Math.floor`); in the scenario n = 3, ideal = 2 both equal
360000 ms (see the witness). -/
theorem C4_start_state (count : ℕ) (cfg : AppConfig) (s : AppState)
    (_hpos : 0 < count) :
    (handleStartSession s count cfg).questions.length = count ∧
    (∀ i, i < count → (handleStartSession s count cfg).questions[i]? =
        some { id := i + 1, status := .NOT_STARTED, timeSpentMs := 0,
               wasSkipped := false }) ∧
    (handleStartSession s count cfg).totalAllocatedTimeMs =
      Rat.floor ((count : ℚ) * cfg.idealTimePerQuestionMin * 60000) ∧
    (handleStartSession s count cfg).remainingTimeMs =
      (handleStartSession s count cfg).totalAllocatedTimeMs := by
  refine ⟨?_, ?_, ?_, rfl⟩
  · rw [handleStartSession_questions, List.length_map, List.length_range]
  · intro i hi
    rw [handleStartSession_questions, List.getElem?_map,
        List.getElem?_range hi, Option.map_some']
  · rw [handleStartSession_total]
    congr 1
    ring

/-- Witness for C4 (amended) at the spec's scenario: 3 questions at
2 minutes each give a 360000 ms budget and three fresh records. -/
theorem C4_witness :
    (0 : ℕ) < 3 ∧
    (handleStartSession initState 3 cfgIdeal2).totalAllocatedTimeMs
      = 360000 ∧
    (handleStartSession initState 3 cfgIdeal2).remainingTimeMs = 360000 ∧
    (handleStartSession initState 3 cfgIdeal2).questions.length = 3 ∧
    (handleStartSession initState 3 cfgIdeal2).questions[0]? =
      some { id := 1, status := .NOT_STARTED, timeSpentMs := 0,
             wasSkipped := false } ∧
    (handleStartSession initState 3 cfgIdeal2).questions[1]? =
      some { id := 2, status := .NOT_STARTED, timeSpentMs := 0,
             wasSkipped := false } ∧
    (handleStartSession initState 3 cfgIdeal2).questions[2]? =
      some { id := 3, status := .NOT_STARTED, timeSpentMs := 0,
             wasSkipped := false } := by
  have h := C4_start_state 3 cfgIdeal2 initState (by decide)
  have hval : Rat.floor (((3 : ℕ) : ℚ) *
      cfgIdeal2.idealTimePerQuestionMin * 60000) = 360000 := by
    rw [show cfgIdeal2.idealTimePerQuestionMin = (2 : ℚ) from rfl]
    apply ratFloor_eq_of <;> norm_num
  refine ⟨by decide, ?_, ?_, h.1, h.2.1 0 (by decide), h.2.1 1 (by decide),
    h.2.1 2 (by decide)⟩
  · rw [h.2.2.1, hval]
  · rw [h.2.2.2, h.2.2.1, hval]

/-- C9: a set `wasSkipped` flag survives every status transition and every
clock tick (monotone for the remainder of the session), and any SKIPPED
transition (first or repeated — the assignment is idempotent) sets it on
the matching record. -/
theorem C9_wasSkipped_monotone (s : AppState) :
    (∀ (i : ℕ) (q : Question), s.questions[i]? = some q →
       q.wasSkipped = true →
       ∀ (id : ℕ) (st : QuestionStatus) (now : ℤ), ∃ q',
         (updateQuestionStatus s id st now).questions[i]? = some q' ∧
         q'.wasSkipped = true) ∧
    (∀ (i : ℕ) (q : Question), s.questions[i]? = some q → ∀ now : ℤ,
       ∃ q', (tick s now).questions[i]? = some q' ∧
         q'.wasSkipped = q.wasSkipped) ∧
    (∀ (id : ℕ) (now : ℤ) (i : ℕ) (q : Question),
       s.questions[i]? = some q → q.id = id →
       (updateQuestionStatus s id .SKIPPED now).questions[i]? =
         some { q with status := .SKIPPED, wasSkipped := true }) := by
  refine ⟨?_, ?_, ?_⟩
  · intro i q hq hsk id st now
    refine ⟨updateRecord id st q, ?_, updateRecord_wasSkipped id st q hsk⟩
    rw [updateQuestionStatus_questions]
    simp only [List.getElem?_map, hq, Option.map_some']
  · intro i q hq now
    by_cases h : tickRunning s
    · cases hA : s.activeQuestionId with
      | none =>
        exact ⟨q, by rw [tick_questions_none s now h hA]; exact hq, rfl⟩
      | some aid =>
        refine ⟨if q.id = aid ∧ q.status = .ACTIVE then
            { q with timeSpentMs := q.timeSpentMs + (now - s.lastTick) }
          else q, ?_, ?_⟩
        · rw [tick_questions_some s now aid h hA]
          simp only [List.getElem?_map, hq, Option.map_some']
        · split_ifs <;> rfl
    · exact ⟨q, by rw [tick_not_running s now h]; exact hq, rfl⟩
  · intro id now i q hq hid
    rw [updateQuestionStatus_questions]
    simp only [List.getElem?_map, hq, Option.map_some']
    unfold updateRecord
    rw [if_neg (by simp [hid]), if_pos rfl]

/-- Witness for C9: after question 1 is skipped, completing it keeps
`wasSkipped = true`. -/
theorem C9_witness :
    ∃ q',
      (updateQuestionStatus skipStep2 1 .COMPLETED 1000).questions[0]?
        = some q' ∧ q'.wasSkipped = true :=
  (C9_wasSkipped_monotone skipStep2).1 0
    { id := 1, status := .SKIPPED, timeSpentMs := 1000, wasSkipped := true }
    (by decide) rfl 1 .COMPLETED 1000

/-- C10: COMPLETED is not terminal in `updateQuestionStatus`: any further
transition on a COMPLETED record overwrites its status (neither rejected
nor a no-op); in particular an ACTIVE transition makes it ACTIVE again,
retargets `activeQuestionId` to it, resynchronises the last-tick
timestamp, and subsequent running ticks resume crediting it. -/
theorem C10_completed_not_terminal (s : AppState) (id : ℕ) (now : ℤ)
    (i : ℕ) (q : Question) (hq : s.questions[i]? = some q)
    (hid : q.id = id) (_hc : q.status = .COMPLETED) :
    (∀ st : QuestionStatus, ∃ q',
        (updateQuestionStatus s id st now).questions[i]? = some q' ∧
        q'.status = st ∧ q'.id = q.id ∧
        q'.timeSpentMs = q.timeSpentMs) ∧
    (updateQuestionStatus s id .ACTIVE now).activeQuestionId = some id ∧
    (updateQuestionStatus s id .ACTIVE now).lastTick = now ∧
    (tickRunning s → ∀ t : ℤ,
        (tick (updateQuestionStatus s id .ACTIVE now) t).questions[i]? =
          some { q with status := .ACTIVE,
                        timeSpentMs := q.timeSpentMs + (t - now) }) := by
  have hex : ∃ p ∈ s.questions, p.id = id :=
    ⟨q, List.getElem?_mem hq, hid⟩
  have hclock := updateQuestionStatus_active_clock s id now hex
  refine ⟨?_, hclock.1, hclock.2, ?_⟩
  · intro st
    refine ⟨updateRecord id st q, ?_, ?_⟩
    · rw [updateQuestionStatus_questions]
      simp only [List.getElem?_map, hq, Option.map_some']
    · unfold updateRecord
      rw [if_neg (by simp [hid])]
      split_ifs <;> exact ⟨rfl, rfl, rfl⟩
  · intro hrun t
    have hrun' : tickRunning (updateQuestionStatus s id .ACTIVE now) :=
      ⟨by rw [updateQuestionStatus_view]; exact hrun.1,
       by rw [updateQuestionStatus_isGlobalPaused]; exact hrun.2⟩
    have hq' : (updateQuestionStatus s id .ACTIVE now).questions[i]? =
        some { q with status := .ACTIVE } := by
      rw [updateQuestionStatus_questions]
      simp only [List.getElem?_map, hq, Option.map_some']
      unfold updateRecord
      rw [if_neg (by simp [hid]), if_neg (by simp)]
    have hstep := (tick_questions_get
        (updateQuestionStatus s id .ACTIVE now) t i
        { q with status := .ACTIVE } hrun' hq').1
        ⟨by rw [hclock.1, hid], rfl⟩
    rw [hclock.2] at hstep
    exact hstep

/-- Witness for C10: question 1, completed with 0 ms, is reactivated and a
tick at t = 500 credits it 500 ms. -/
theorem C10_witness :
    (updateQuestionStatus cDone 1 .ACTIVE 0).activeQuestionId = some 1 ∧
    (tick (updateQuestionStatus cDone 1 .ACTIVE 0) 500).questions[0]? =
      some { id := 1, status := .ACTIVE, timeSpentMs := 500,
             wasSkipped := false } := by
  have h := C10_completed_not_terminal cDone 1 0 0
      { id := 1, status := .COMPLETED, timeSpentMs := 0,
        wasSkipped := false }
      (by decide) rfl rfl
  refine ⟨h.2.1, ?_⟩
  have h2 := h.2.2.2 (by exact ⟨by decide, by decide⟩) 500
  rw [h2]
  decide

end JeeTracker
